import Mathlib

/-!
Verification development for the Bitbucket commit-analysis pipeline
(bitbucket_analyzer.py): a shallow embedding of the BitbucketClient,
CommitAnalyzer and Reporter components, followed by theorems settling the
specified properties.

Modelling conventions:
- Python dicts coming from the REST API are embedded as structures whose
  fields are `Option`-typed exactly where the source reads them with
  `dict.get(key, default)`; a field the source indexes directly
  (`dict[key]`) and that is always present in the data model is embedded
  as a required field.
- Raised exceptions are embedded as `Except` values: the generic wrapper
  exception raised by `BitbucketClient._make_request` is `TransportError`
  (the name the specification gives it), carrying the original
  `RequestException` cause; a failed dictionary lookup is
  `AnalyzerError.keyError`.
- The unbounded `while not is_last_page` pagination loops are embedded
  with an explicit fuel parameter; running out of fuel yields the model
  artifact `AnalyzerError.fuelExhausted`, which no claim relies on.
- Mutable loop accumulators become explicit fold state, as the
  specification itself suggests for the baseline threading.
-/

/-- A parent entry of a commit. The source indexes `parent["id"]` directly. -/
structure Parent where
  id : String
deriving DecidableEq

/-- The author object of a commit; the source reads `author.get("name", "Unknown")`. -/
structure Author where
  name : Option String
deriving DecidableEq

/-- A commit object as returned by the server. `commit["id"]` is indexed
directly by the source; `parents`, `author` and `authorTimestamp` are read
with `.get` and a default, hence `Option`. -/
structure Commit where
  id : String
  parents : Option (List Parent)
  author : Option Author
  authorTimestamp : Option Nat
deriving DecidableEq

/-- The `path` object of a file change; the source indexes
`change["path"]["toString"]`, and a missing key raises `KeyError`. -/
structure ChangePath where
  toString : Option String
deriving DecidableEq

/-- One entry of the change list between two commits. -/
structure Change where
  path : Option ChangePath
  type : Option String
  srcExecutable : Option Bool
  executable : Option Bool
deriving DecidableEq

/-- A diff segment: `segment.get('type')` and `segment.get('lines', [])`. -/
structure Segment where
  type : Option String
  lines : Option (List String)
deriving DecidableEq

/-- A diff hunk: `hunk.get('segments', [])`. -/
structure Hunk where
  segments : Option (List Segment)
deriving DecidableEq

/-- One diff of a per-file diff response: `diff.get('hunks', [])`. -/
structure Diff where
  hunks : Option (List Hunk)
deriving DecidableEq

/-- The body of a `/diff/{path}` response: `data.get('diffs', [])`. -/
structure DiffResponse where
  diffs : Option (List Diff)
deriving DecidableEq

/-- One page of a paginated response: `values`, `isLastPage` and
`nextPageStart` are each read with `.get` and a default, hence `Option`. -/
structure Page (α : Type) where
  values : Option (List α)
  isLastPage : Option Bool
  nextPageStart : Option Nat
deriving DecidableEq

/-- The failure modes of one underlying HTTP request, mirroring
`requests.exceptions.RequestException`: a network failure, a non-success
HTTP status (raised by `raise_for_status`), or a malformed response body
(raised by `response.json()`, a `RequestException` subclass in the
`requests` versions this script targets). -/
inductive RequestException where
  | networkError (message : String)
  | httpError (status : Nat)
  | jsonDecodeError (message : String)
deriving DecidableEq

/-- The single error kind raised by `BitbucketClient._make_request`
(`raise Exception(f"Failed to make API request: {e}")`), which the
specification names `TransportError`; it carries the original cause. -/
structure TransportError where
  cause : RequestException
deriving DecidableEq

/-- Every error the embedded pipeline can signal: a wrapped transport
failure, a Python `KeyError` on a missing dictionary key, or the
fuel-exhaustion artifact of embedding the unbounded pagination loop. -/
inductive AnalyzerError where
  | transport (e : TransportError)
  | keyError (key : String)
  | fuelExhausted
deriving DecidableEq

/-- The analysis record built at the end of `analyze_commit_changes`: a
dictionary with exactly these seven keys, in this insertion order. Line
counters are natural numbers (they accumulate list lengths); the net
change is an integer and may be negative. -/
structure AnalysisRecord where
  analyzed_commit : String
  author : String
  date : Nat
  files_changed : Nat
  lines_added : Nat
  lines_removed : Nat
  net_change : Int
deriving DecidableEq

/-- The raw HTTP transport underneath the client, one function per
endpoint the script calls. `commitsPage branch start limit` is
`GET /commits`, `changesPage current since start limit` is
`GET /commits/{current}/changes`, `fileDiff current since path` is
`GET /diff/{path}`. Each returns the parsed body or the request
exception the call raised. -/
structure Transport where
  commitsPage : String → Nat → Nat → Except RequestException (Page Commit)
  changesPage : String → Option String → Nat → Nat → Except RequestException (Page Change)
  fileDiff : String → Option String → String → Except RequestException DiffResponse

namespace BitbucketClient

/-- `_make_request`: performs one request and wraps any
`RequestException` into the single `TransportError` kind, keeping the
original cause. No retry: exactly one underlying call per invocation. -/
def make_request {α : Type} (response : Except RequestException α) : Except TransportError α :=
  match response with
  | .ok value => .ok value
  | .error e => .error { cause := e }

/-- The body of the `while not is_last_page` loop of `get_commits`,
with the loop state (`start`, accumulated `all_commits`) explicit and a
fuel bound on the number of iterations. -/
def get_commits_go (t : Transport) (branch : String) :
    Nat → Nat → List Commit → Except AnalyzerError (List Commit)
  | 0, _, _ => .error .fuelExhausted
  | Nat.succ fuel, start, all_commits =>
    match make_request (t.commitsPage branch start 100) with
    | .error e => .error (.transport e)
    | .ok response =>
      let all_commits := all_commits ++ response.values.getD []
      let is_last_page := response.isLastPage.getD true
      let next_start := response.nextPageStart.getD 0
      if is_last_page then .ok all_commits
      else get_commits_go t branch fuel next_start all_commits

/-- `BitbucketClient.get_commits`: fetch all commits of a branch,
page size 100, starting at offset 0 with an empty accumulator. -/
def get_commits (t : Transport) (branch : String) (fuel : Nat) :
    Except AnalyzerError (List Commit) :=
  get_commits_go t branch fuel 0 []

/-- The body of the pagination loop of `get_commit_changes`, page
size 1000, with explicit loop state and fuel. -/
def get_commit_changes_go (t : Transport) (current_commit_id : String)
    (previous_commit_id : Option String) :
    Nat → Nat → List Change → Except AnalyzerError (List Change)
  | 0, _, _ => .error .fuelExhausted
  | Nat.succ fuel, start, all_changes =>
    match make_request (t.changesPage current_commit_id previous_commit_id start 1000) with
    | .error e => .error (.transport e)
    | .ok response =>
      let all_changes := all_changes ++ response.values.getD []
      let is_last_page := response.isLastPage.getD true
      let next_start := response.nextPageStart.getD 0
      if is_last_page then .ok all_changes
      else get_commit_changes_go t current_commit_id previous_commit_id fuel next_start all_changes

/-- `BitbucketClient.get_commit_changes`: fetch all changes between two
commits. -/
def get_commit_changes (t : Transport) (current_commit_id : String)
    (previous_commit_id : Option String) (fuel : Nat) :
    Except AnalyzerError (List Change) :=
  get_commit_changes_go t current_commit_id previous_commit_id fuel 0 []

/-- `BitbucketClient.get_file_change`: single-shot fetch of the per-file
diff between two commits. -/
def get_file_change (t : Transport) (current_commit_id : String)
    (previous_commit_id : Option String) (file_path : String) :
    Except TransportError DiffResponse :=
  make_request (t.fileDiff current_commit_id previous_commit_id file_path)

end BitbucketClient

namespace CommitAnalyzer

/-- `is_merge_commit`: more than one parent
(`len(commit.get("parents", [])) > 1`). -/
def is_merge_commit (commit : Commit) : Bool :=
  (commit.parents.getD []).length > 1

/-- `is_initial_commit`: no parents
(`len(commit.get("parents", [])) == 0`). -/
def is_initial_commit (commit : Commit) : Bool :=
  (commit.parents.getD []).length == 0

/-- `filter_significant_commits`: the loop appending exactly the commits
satisfying `is_initial_commit or is_merge_commit`, in input order. -/
def filter_significant_commits (commits : List Commit) : List Commit :=
  commits.filter (fun commit => is_initial_commit commit || is_merge_commit commit)

/-- The baseline resolution at the top of `analyze_commit_changes`: if no
previous commit id was supplied and the commit is not initial, use the id
of its first parent (`current_commit["parents"][0]["id"]`). The empty
parents branch is unreachable when the commit is not initial; it is the
`KeyError` Python would raise there. -/
def resolve_previous_commit (current_commit : Commit)
    (previous_commit_id : Option String) : Except AnalyzerError (Option String) :=
  if previous_commit_id.isNone && !(is_initial_commit current_commit) then
    match current_commit.parents.getD [] with
    | parent :: _ => .ok (some parent.id)
    | [] => .error (.keyError "parents")
  else .ok previous_commit_id

/-- The innermost summation of `analyze_commit_changes`: walk one diff
response over diffs, hunks and segments, adding the line count of each
ADDED segment to the first counter and of each REMOVED segment to the
second. -/
def count_diff_lines (data : DiffResponse) (lines_added lines_removed : Nat) : Nat × Nat :=
  (data.diffs.getD []).foldl (fun counts diff =>
    (diff.hunks.getD []).foldl (fun counts hunk =>
      (hunk.segments.getD []).foldl (fun counts segment =>
        if segment.type == some "ADDED" then
          (counts.1 + (segment.lines.getD []).length, counts.2)
        else if segment.type == some "REMOVED" then
          (counts.1, counts.2 + (segment.lines.getD []).length)
        else counts) counts) counts) (lines_added, lines_removed)

/-- One iteration of the `for change in changes` loop of
`analyze_commit_changes`. State is `(lines_added, lines_removed,
files_changed)`. `files_changed` increments once per entry; when the
change carries a `type` key the per-file diff is fetched (through
`change["path"]["toString"]`, which raises `KeyError` on a missing key)
and its line counts are added. The local `file_change_info` dict of the
source is built and never read, so it is omitted here. -/
def process_change (t : Transport) (current_commit_id : String)
    (previous_commit_id : Option String) (state : Nat × Nat × Nat)
    (change : Change) : Except AnalyzerError (Nat × Nat × Nat) :=
  match state with
  | (lines_added, lines_removed, files_changed) =>
    let files_changed := files_changed + 1
    if change.type.isSome then
      match change.path with
      | none => .error (.keyError "path")
      | some path =>
        match path.toString with
        | none => .error (.keyError "toString")
        | some file_path =>
          match BitbucketClient.get_file_change t current_commit_id previous_commit_id file_path with
          | .error e => .error (.transport e)
          | .ok data =>
            match count_diff_lines data lines_added lines_removed with
            | (lines_added, lines_removed) => .ok (lines_added, lines_removed, files_changed)
    else .ok (lines_added, lines_removed, files_changed)

/-- `analyze_commit_changes`: resolve the baseline, fetch the change
list, fold the per-change processing over it starting from zero
counters, and build the analysis record. `excluded_extensions` is
accepted but never read by the source body. -/
def analyze_commit_changes (t : Transport) (current_commit : Commit)
    (previous_commit_id : Option String) (excluded_extensions : Option (List String))
    (fuel : Nat) : Except AnalyzerError AnalysisRecord :=
  match resolve_previous_commit current_commit previous_commit_id with
  | .error e => .error e
  | .ok previous_commit_id =>
    match BitbucketClient.get_commit_changes t current_commit.id previous_commit_id fuel with
    | .error e => .error e
    | .ok changes =>
      match changes.foldlM (process_change t current_commit.id previous_commit_id) (0, 0, 0) with
      | .error e => .error e
      | .ok (lines_added, lines_removed, files_changed) =>
        .ok {
          analyzed_commit := current_commit.id
          author := ((current_commit.author.getD { name := none }).name).getD "Unknown"
          date := current_commit.authorTimestamp.getD 0
          files_changed := files_changed
          lines_added := lines_added
          lines_removed := lines_removed
          net_change := (lines_added : Int) - (lines_removed : Int)
        }

/-- The `for commit in reversed(significant_commits)` loop of
`analyze_branch`, as the sequential fold it is: analyze the head against
the threaded `previous_commit_id`, then recurse with the head id as the
new baseline, collecting results in processing order. -/
def analyze_significant_commits (t : Transport) (excluded_extensions : Option (List String))
    (fuel : Nat) : List Commit → Option String → Except AnalyzerError (List AnalysisRecord)
  | [], _ => .ok []
  | commit :: rest, previous_commit_id =>
    match analyze_commit_changes t commit previous_commit_id excluded_extensions fuel with
    | .error e => .error e
    | .ok analysis =>
      match analyze_significant_commits t excluded_extensions fuel rest (some commit.id) with
      | .error e => .error e
      | .ok results => .ok (analysis :: results)

/-- `analyze_branch`: fetch all commits, return `[]` when there are
none, filter to the significant ones, return `[]` when there are none,
then process the significant commits in reversed (oldest-first) order,
threading the previous significant commit id as the baseline. -/
def analyze_branch (t : Transport) (branch : String)
    (excluded_extensions : Option (List String)) (fuel : Nat) :
    Except AnalyzerError (List AnalysisRecord) :=
  match BitbucketClient.get_commits t branch fuel with
  | .error e => .error e
  | .ok all_commits =>
    if all_commits.isEmpty then .ok []
    else
      let significant_commits := filter_significant_commits all_commits
      if significant_commits.isEmpty then .ok []
      else analyze_significant_commits t excluded_extensions fuel significant_commits.reverse none

end CommitAnalyzer

namespace Reporter

/-- Stand-in for the out-of-scope calendar rendering
(`datetime.fromtimestamp(timestamp / 1000).strftime(...)`, a library
call the specification places outside the core); no claim depends on
its output. -/
def datetime_strftime (timestamp : Nat) : String :=
  "date " ++ toString timestamp

/-- `format_timestamp`: the sentinel for a zero or absent timestamp,
otherwise the external calendar rendering. -/
def format_timestamp (timestamp : Nat) : String :=
  if timestamp == 0 then "Unknown date"
  else datetime_strftime timestamp

/-- Per-author totals, the value type of the `cumulative_data` dict of
`generate_text_report`. -/
structure AuthorTotals where
  files_changed : Nat
  lines_added : Nat
  lines_removed : Nat
  net_change : Int
deriving DecidableEq

/-- The totals entry created for an author on first occurrence: each
counter is initialized to zero and then incremented by the first
record, inside the same `if` branch of the source. -/
def author_totals (result : AnalysisRecord) : AuthorTotals :=
  { files_changed := 0 + result.files_changed
    lines_added := 0 + result.lines_added
    lines_removed := 0 + result.lines_removed
    net_change := 0 + result.net_change }

/-- One iteration of the cumulative loop of `generate_text_report`: when
the author is not yet a key of `cumulative_data` (a dict, embedded as an
insertion-ordered association list), a totals entry is created and
filled from this record; when the author is already present, nothing at
all happens (the increments sit inside the first-occurrence branch of
the source). -/
def cumulative_step (cumulative_data : List (String × AuthorTotals))
    (result : AnalysisRecord) : List (String × AuthorTotals) :=
  if (List.lookup result.author cumulative_data).isSome then cumulative_data
  else cumulative_data ++ [(result.author, author_totals result)]

/-- The `cumulative_data` dict after the whole loop. -/
def cumulative_by_author (analysis_results : List AnalysisRecord) :
    List (String × AuthorTotals) :=
  analysis_results.foldl cumulative_step []

/-- The lookup `result["is_initial"]` performed by the non-cumulative
branch of `generate_text_report`: an analysis record carries exactly the
seven keys built by `analyze_commit_changes`, `is_initial` is not among
them, so the lookup finds nothing and Python raises `KeyError`. -/
def record_lookup_is_initial (_result : AnalysisRecord) : Option Bool :=
  none

/-- One per-commit block of the non-cumulative text report. The first
line already needs `result["is_initial"]`, which raises. -/
def text_report_commit_block (result : AnalysisRecord) :
    Except AnalyzerError (List String) :=
  match record_lookup_is_initial result with
  | none => .error (.keyError "is_initial")
  | some is_initial =>
    let commit_type := if is_initial then "Initail Commit" else "Merge Commit"
    .ok ["Commit: " ++ result.analyzed_commit.take 7 ++ " (" ++ commit_type ++ ")",
         "Author: " ++ result.author,
         "Date: " ++ format_timestamp result.date,
         "Files Changed: " ++ toString result.files_changed,
         "Lines Added: " ++ toString result.lines_added,
         "Lines Removed: " ++ toString result.lines_removed,
         "Net Change: " ++ toString result.net_change,
         String.mk (List.replicate 30 (Char.ofNat 45)),
         ""]

/-- `generate_text_report`. Empty input returns the sentinel string. In
the cumulative branch the source rebinds `report_lines` to the
`cumulative_data` dict and `"\n".join(...)` over a dict iterates its
keys, so the returned string is the newline-join of the author names in
insertion order. In the non-cumulative branch the per-commit blocks are
accumulated onto the header and a totals footer is appended.
`show_files` is accepted but never read by the source body. -/
def generate_text_report (analysis_results : List AnalysisRecord)
    (show_files : Bool) (show_cumulative : Bool) : Except AnalyzerError String :=
  if analysis_results.isEmpty then .ok "No results to report."
  else
    let report_lines : List String :=
      ["Bitbucket Commit Analysis Report", String.mk (List.replicate 30 (Char.ofNat 61)), ""]
    if show_cumulative then
      let cumulative_data := cumulative_by_author analysis_results
      .ok (String.intercalate "\n" (cumulative_data.map Prod.fst))
    else
      match analysis_results.foldlM (fun (lines : List String) result =>
        match text_report_commit_block result with
        | Except.error e => Except.error e
        | Except.ok block => Except.ok (lines ++ block)) report_lines with
      | .error e => .error e
      | .ok body =>
        let total_added := (analysis_results.map (fun r => r.lines_added)).sum
        let total_removed := (analysis_results.map (fun r => r.lines_removed)).sum
        let total_net := (analysis_results.map (fun r => r.net_change)).sum
        let total_files := (analysis_results.map (fun r => r.files_changed)).sum
        let footer := ["Total Files Changed: " ++ toString total_files,
                       "Total Lines Added: " ++ toString total_added,
                       "Total Lines Removed: " ++ toString total_removed,
                       "Total Net Change: " ++ toString total_net]
        .ok (String.intercalate "\n" (body ++ footer))

end Reporter

/-- A JSON value, the shape `json.dumps` serializes; `generate_json_report`
is embedded as the JSON value it emits, string serialization being an
out-of-scope library call. -/
inductive JsonVal where
  | str (s : String)
  | num (n : Int)
  | arr (items : List JsonVal)
  | obj (fields : List (String × JsonVal))

/-- Key lookup in a JSON object (first match, insertion order). -/
def JsonVal.objGet : JsonVal → String → Option JsonVal
  | .obj fields, key => List.lookup key fields
  | _, _ => none

/-- Last element of a JSON array. -/
def JsonVal.arrLast : JsonVal → Option JsonVal
  | .arr items => items.getLast?
  | _ => none

namespace Reporter

/-- The seven key-value pairs of one analysis record as serialized
into the `commits` array, in insertion order. -/
def analysis_record_fields (result : AnalysisRecord) : List (String × JsonVal) :=
  [("analyzed_commit", .str result.analyzed_commit),
   ("author", .str result.author),
   ("date", .num (result.date : Int)),
   ("files_changed", .num (result.files_changed : Int)),
   ("lines_added", .num (result.lines_added : Int)),
   ("lines_removed", .num (result.lines_removed : Int)),
   ("net_change", .num result.net_change)]

/-- The four cumulative keys appended to a record by the cumulative
branch of `generate_json_report`, in the order the source adds them. -/
def cumulative_fields (cumulative_files cumulative_added cumulative_removed : Nat)
    (cumulative_net : Int) : List (String × JsonVal) :=
  [("cumulative_files_changed", .num (cumulative_files : Int)),
   ("cumulative_lines_added", .num (cumulative_added : Int)),
   ("cumulative_lines_removed", .num (cumulative_removed : Int)),
   ("cumulative_net_change", .num cumulative_net)]

/-- The cumulative loop of `generate_json_report`: running totals are
updated record by record, in input order, and each record is emitted
with the running totals up to and including itself. -/
def annotate_cumulative :
    List AnalysisRecord → Nat → Nat → Int → Nat → List JsonVal
  | [], _, _, _, _ => []
  | result :: rest, cumulative_added, cumulative_removed, cumulative_net, cumulative_files =>
    JsonVal.obj (analysis_record_fields result ++
        cumulative_fields (cumulative_files + result.files_changed)
          (cumulative_added + result.lines_added)
          (cumulative_removed + result.lines_removed)
          (cumulative_net + result.net_change))
      :: annotate_cumulative rest (cumulative_added + result.lines_added)
          (cumulative_removed + result.lines_removed)
          (cumulative_net + result.net_change)
          (cumulative_files + result.files_changed)

/-- The `summary` object of `generate_json_report`, keys in source
order. -/
def report_summary (analysis_results : List AnalysisRecord) : List (String × JsonVal) :=
  [("total_commits", .num (analysis_results.length : Int)),
   ("total_files_changed", .num (((analysis_results.map (fun r => r.files_changed)).sum : Nat) : Int)),
   ("total_lines_added", .num (((analysis_results.map (fun r => r.lines_added)).sum : Nat) : Int)),
   ("total_lines_removed", .num (((analysis_results.map (fun r => r.lines_removed)).sum : Nat) : Int)),
   ("total_net_change", .num ((analysis_results.map (fun r => r.net_change)).sum))]

/-- `generate_json_report`: empty input yields the single-key error
object; otherwise a `summary` object plus the `commits` array, the
records annotated with running totals when `show_cumulative` is set. -/
def generate_json_report (analysis_results : List AnalysisRecord)
    (show_cumulative : Bool) : JsonVal :=
  if analysis_results.isEmpty then .obj [("error", .str "No results to report.")]
  else
    let summary := JsonVal.obj (report_summary analysis_results)
    let commits :=
      if show_cumulative then annotate_cumulative analysis_results 0 0 0 0
      else analysis_results.map (fun result => JsonVal.obj (analysis_record_fields result))
    .obj [("summary", summary), ("commits", .arr commits)]

end Reporter

/-! Concrete fixtures used by the examples and witnesses below. -/

/-- A page that is the last one, carrying the given values. -/
def last_page {α : Type} (values : List α) : Page α :=
  { values := some values, isLastPage := some true, nextPageStart := none }

/-- A modified file entry with the given path. -/
def sample_change (file_path : String) : Change :=
  { path := some { toString := some file_path }, type := some "MODIFY",
    srcExecutable := none, executable := none }

/-- Example commit A of the specification: initial, no parents. -/
def cA : Commit :=
  { id := "A", parents := some [], author := some { name := some "alice" },
    authorTimestamp := some 1000 }

/-- Example commit B: one parent A, hence not significant. -/
def cB : Commit :=
  { id := "B", parents := some [{ id := "A" }], author := some { name := some "bob" },
    authorTimestamp := some 2000 }

/-- Example commit C: a merge of A and B (two parents). -/
def cC : Commit :=
  { id := "C", parents := some [{ id := "A" }, { id := "B" }],
    author := some { name := some "carol" }, authorTimestamp := some 3000 }

/-- Transport for the A/B/C example. The commit list arrives
newest-first (`[C, B, A]`). The change list between C and baseline A has
two entries while the one between C and baseline B has five, so the
analysis record for C reveals which baseline was used. All per-file
diffs are empty. -/
def tEx : Transport :=
  { commitsPage := fun _ start _ =>
      if start == 0 then .ok (last_page [cC, cB, cA]) else .ok (last_page [])
    changesPage := fun current since _ _ =>
      if current == "A" && since == none then
        .ok (last_page [sample_change "init.txt"])
      else if current == "C" && since == some "A" then
        .ok (last_page [sample_change "x.txt", sample_change "y.txt"])
      else if current == "C" && since == some "B" then
        .ok (last_page [sample_change "x.txt", sample_change "y.txt",
                        sample_change "z1.txt", sample_change "z2.txt", sample_change "z3.txt"])
      else .ok (last_page [])
    fileDiff := fun _ _ _ => .ok { diffs := some [] } }

/-- The analysis record for example commit A (baseline resolved to none). -/
def recA : AnalysisRecord :=
  { analyzed_commit := "A", author := "alice", date := 1000,
    files_changed := 1, lines_added := 0, lines_removed := 0, net_change := 0 }

/-- The analysis record for example commit C against baseline A. -/
def recC : AnalysisRecord :=
  { analyzed_commit := "C", author := "carol", date := 3000,
    files_changed := 2, lines_added := 0, lines_removed := 0, net_change := 0 }

/-- The analysis record commit C would yield against baseline B instead. -/
def recCB : AnalysisRecord :=
  { analyzed_commit := "C", author := "carol", date := 3000,
    files_changed := 5, lines_added := 0, lines_removed := 0, net_change := 0 }

/-- A trivial transport: every page is an empty last page, every diff is
empty. -/
def tTriv : Transport :=
  { commitsPage := fun _ _ _ => .ok (last_page [])
    changesPage := fun _ _ _ _ => .ok (last_page [])
    fileDiff := fun _ _ _ => .ok { diffs := some [] } }

/-- A minimal initial commit with no author data. -/
def c0 : Commit :=
  { id := "c0", parents := some [], author := none, authorTimestamp := none }

/-- The record `analyze_commit_changes` produces for `c0` over `tTriv`:
exactly the seven fields, all sentinels and zero counters. -/
def rec0 : AnalysisRecord :=
  { analyzed_commit := "c0", author := "Unknown", date := 0,
    files_changed := 0, lines_added := 0, lines_removed := 0, net_change := 0 }

/-- A request exception standing for a concrete network failure. -/
def eNet : RequestException := .networkError "connection refused"

/-- A transport on which every request raises `eNet`. -/
def tFail : Transport :=
  { commitsPage := fun _ _ _ => .error eNet
    changesPage := fun _ _ _ _ => .error eNet
    fileDiff := fun _ _ _ => .error eNet }

/-- A commit page that omits `values`, `isLastPage` and `nextPageStart`. -/
def pageNoLast : Page Commit :=
  { values := none, isLastPage := none, nextPageStart := none }

/-- A change page with one value that omits `isLastPage`. -/
def pageNoLastChanges : Page Change :=
  { values := some [sample_change "w.txt"], isLastPage := none, nextPageStart := none }

/-- A transport whose pages all omit the `isLastPage` field. -/
def tPag : Transport :=
  { commitsPage := fun _ _ _ => .ok pageNoLast
    changesPage := fun _ _ _ _ => .ok pageNoLastChanges
    fileDiff := fun _ _ _ => .ok { diffs := none } }

/-- Two records by the same author differing only in their line counts. -/
def recD1 : AnalysisRecord :=
  { analyzed_commit := "d1", author := "alice", date := 0,
    files_changed := 3, lines_added := 5, lines_removed := 1, net_change := 4 }

/-- Same author and shape as `recD1` but with different line counts. -/
def recD2 : AnalysisRecord :=
  { analyzed_commit := "d1", author := "alice", date := 0,
    files_changed := 3, lines_added := 99, lines_removed := 1, net_change := 98 }

/-- Spec-side description (for the amended cumulative claim): the author
names of a record list in order of first occurrence. -/
def authors_first_occurrence : List AnalysisRecord → List String
  | [] => []
  | result :: rest =>
    result.author ::
      authors_first_occurrence (rest.filter (fun r => !(r.author == result.author)))
termination_by l => l.length
decreasing_by
  simp only [List.length_cons]
  exact Nat.lt_succ_of_le (List.length_filter_le _ _)

/-! Theorems. -/

/-- The baseline resolution of `analyze_commit_changes` never fails: the
error branch would need a non-initial commit with an empty parent list,
which contradicts the definition of `is_initial_commit`. -/
theorem resolve_previous_commit_always_ok (current_commit : Commit)
    (previous_commit_id : Option String) :
    ∃ resolved, CommitAnalyzer.resolve_previous_commit current_commit previous_commit_id =
      .ok resolved := by
  unfold CommitAnalyzer.resolve_previous_commit
  cases hl : current_commit.parents.getD [] with
  | nil =>
    have hinit : CommitAnalyzer.is_initial_commit current_commit = true := by
      simp [CommitAnalyzer.is_initial_commit, hl]
    simp only [hinit, Bool.not_true, Bool.and_false, Bool.false_eq_true, if_false]
    exact ⟨previous_commit_id, rfl⟩
  | cons parent rest =>
    simp only [hl]
    split
    · exact ⟨some parent.id, rfl⟩
    · exact ⟨previous_commit_id, rfl⟩

/-- C2: every analysis record returned by `analyze_commit_changes`
satisfies `net_change = lines_added - lines_removed` over the integers,
for every transport, commit, baseline, exclusion list and fuel. -/
theorem C2_net_change_invariant (t : Transport) (current_commit : Commit)
    (previous_commit_id : Option String) (excluded_extensions : Option (List String))
    (fuel : Nat) (record : AnalysisRecord)
    (h : CommitAnalyzer.analyze_commit_changes t current_commit previous_commit_id
      excluded_extensions fuel = .ok record) :
    record.net_change = (record.lines_added : Int) - (record.lines_removed : Int) := by
  unfold CommitAnalyzer.analyze_commit_changes at h
  split at h
  · simp at h
  · split at h
    · simp at h
    · split at h
      · simp at h
      · simp only [Except.ok.injEq] at h
        subst h
        rfl

/-- Witness for C2 at a concrete transport and commit. -/
theorem C2_net_change_invariant_witness :
    rec0.net_change = (rec0.lines_added : Int) - (rec0.lines_removed : Int) :=
  C2_net_change_invariant tTriv c0 none none 1 rec0 rfl

/-- C7: `analyze_commit_changes` does not depend on the
`excluded_extensions` argument: its body never reads the parameter, so
any two exclusion lists yield the same result. -/
theorem C7_excluded_extensions_no_effect (t : Transport) (current_commit : Commit)
    (previous_commit_id : Option String)
    (excluded_one excluded_two : Option (List String)) (fuel : Nat) :
    CommitAnalyzer.analyze_commit_changes t current_commit previous_commit_id
        excluded_one fuel =
      CommitAnalyzer.analyze_commit_changes t current_commit previous_commit_id
        excluded_two fuel := rfl

/-- C4: `filter_significant_commits` is a stable filter: the output is a
sublist of the input (relative order preserved), and a commit is in the
output exactly when it is in the input with an empty parent list or a
parent list of more than one entry. -/
theorem C4_filter_significant_stable (commits : List Commit) :
    List.Sublist (CommitAnalyzer.filter_significant_commits commits) commits ∧
    ∀ commit : Commit,
      commit ∈ CommitAnalyzer.filter_significant_commits commits ↔
        commit ∈ commits ∧
          ((commit.parents.getD []).length = 0 ∨ 1 < (commit.parents.getD []).length) := by
  refine ⟨List.filter_sublist _, fun commit => ?_⟩
  simp [CommitAnalyzer.filter_significant_commits, List.mem_filter,
    CommitAnalyzer.is_initial_commit, CommitAnalyzer.is_merge_commit]

/-- Witness for C4: the merge commit C is kept by the filter. -/
theorem C4_filter_significant_stable_witness :
    cC ∈ CommitAnalyzer.filter_significant_commits [cC, cB, cA] :=
  ((C4_filter_significant_stable [cC, cB, cA]).2 cC).mpr
    ⟨by decide, Or.inr (by decide)⟩

/-- C5: empty results are values, not errors: `analyze_branch` returns
an empty list when the branch has no commits or no significant commits;
the text report on an empty list is the sentinel string; the JSON report
on an empty list is exactly the single-key error object. -/
theorem C5_empty_results_are_values :
    (∀ (t : Transport) (branch : String) (excluded_extensions : Option (List String))
       (fuel : Nat) (commits : List Commit),
       BitbucketClient.get_commits t branch fuel = .ok commits →
       commits = [] ∨ CommitAnalyzer.filter_significant_commits commits = [] →
       CommitAnalyzer.analyze_branch t branch excluded_extensions fuel = .ok []) ∧
    (∀ show_files show_cumulative : Bool,
       Reporter.generate_text_report [] show_files show_cumulative =
         .ok "No results to report.") ∧
    (∀ show_cumulative : Bool,
       Reporter.generate_json_report [] show_cumulative =
         JsonVal.obj [("error", JsonVal.str "No results to report.")]) := by
  refine ⟨fun t branch excluded fuel commits hget hemp => ?_,
    fun show_files show_cumulative => rfl, fun show_cumulative => rfl⟩
  unfold CommitAnalyzer.analyze_branch
  rw [hget]
  rcases hemp with rfl | hsig
  · rfl
  · cases hc : commits.isEmpty
    · simp [hc, hsig]
    · simp [hc]

/-- Witness for C5 at a transport whose branch is empty. -/
theorem C5_empty_results_are_values_witness :
    CommitAnalyzer.analyze_branch tTriv "main" none 1 = .ok [] ∧
    Reporter.generate_text_report [] true true = .ok "No results to report." ∧
    Reporter.generate_json_report [] true =
      JsonVal.obj [("error", JsonVal.str "No results to report.")] :=
  ⟨C5_empty_results_are_values.1 tTriv "main" none 1 [] rfl (Or.inl rfl),
   C5_empty_results_are_values.2.1 true true,
   C5_empty_results_are_values.2.2 true⟩

/-- C3 (code defect): on exactly the record `analyze_commit_changes`
produces, the non-cumulative text report raises `KeyError("is_initial")`
instead of returning a string, because it reads a key the analyzer never
emits; the cumulative branch and the JSON report do return values. -/
theorem C3_text_report_is_initial_keyerror :
    CommitAnalyzer.analyze_commit_changes tTriv c0 none none 1 = .ok rec0 ∧
    Reporter.generate_text_report [rec0] true false =
      .error (AnalyzerError.keyError "is_initial") ∧
    Reporter.generate_text_report [rec0] true true = .ok "Unknown" ∧
    Reporter.generate_json_report [rec0] false =
      JsonVal.obj [("summary", JsonVal.obj (Reporter.report_summary [rec0])),
        ("commits", JsonVal.arr [JsonVal.obj (Reporter.analysis_record_fields rec0)])] :=
  ⟨rfl, rfl, rfl, rfl⟩

/-- C9: a failing request is wrapped into the single `TransportError`
kind carrying the original cause, and propagates immediately: one failed
page fetch aborts the commit-list pagination (whatever fuel remains,
with no partial result), a failing commit-list fetch aborts
`analyze_branch`, and a failing change-list fetch aborts the in-progress
commit analysis. -/
theorem C9_transport_errors_wrapped_and_abort :
    (∀ (α : Type) (e : RequestException),
       BitbucketClient.make_request (Except.error e : Except RequestException α) =
         .error { cause := e }) ∧
    (∀ (t : Transport) (branch : String) (fuel start : Nat) (acc : List Commit)
       (e : RequestException), t.commitsPage branch start 100 = .error e →
       BitbucketClient.get_commits_go t branch (fuel + 1) start acc =
         .error (.transport { cause := e })) ∧
    (∀ (t : Transport) (branch : String) (excluded_extensions : Option (List String))
       (fuel : Nat) (e : RequestException), t.commitsPage branch 0 100 = .error e →
       CommitAnalyzer.analyze_branch t branch excluded_extensions (fuel + 1) =
         .error (.transport { cause := e })) ∧
    (∀ (t : Transport) (current_commit : Commit) (previous_commit_id : Option String)
       (excluded_extensions : Option (List String)) (fuel : Nat) (e : RequestException),
       (∀ (current : String) (since : Option String) (start limit : Nat),
          t.changesPage current since start limit = .error e) →
       CommitAnalyzer.analyze_commit_changes t current_commit previous_commit_id
         excluded_extensions (fuel + 1) = .error (.transport { cause := e })) := by
  refine ⟨fun α e => rfl, ?_, ?_, ?_⟩
  · intro t branch fuel start acc e hreq
    simp [BitbucketClient.get_commits_go, BitbucketClient.make_request, hreq]
  · intro t branch excluded fuel e hreq
    simp [CommitAnalyzer.analyze_branch, BitbucketClient.get_commits,
      BitbucketClient.get_commits_go, BitbucketClient.make_request, hreq]
  · intro t current_commit previous_commit_id excluded fuel e hreq
    obtain ⟨resolved, hres⟩ :=
      resolve_previous_commit_always_ok current_commit previous_commit_id
    simp [CommitAnalyzer.analyze_commit_changes, hres,
      BitbucketClient.get_commit_changes, BitbucketClient.get_commit_changes_go,
      BitbucketClient.make_request, hreq]

/-- Witness for C9 at a transport on which every request fails. -/
theorem C9_transport_errors_wrapped_and_abort_witness :
    BitbucketClient.make_request (Except.error eNet : Except RequestException (List Commit)) =
      .error { cause := eNet } ∧
    BitbucketClient.get_commits_go tFail "main" 1 0 [] =
      .error (.transport { cause := eNet }) ∧
    CommitAnalyzer.analyze_branch tFail "main" none 1 =
      .error (.transport { cause := eNet }) ∧
    CommitAnalyzer.analyze_commit_changes tFail c0 none none 1 =
      .error (.transport { cause := eNet }) :=
  ⟨C9_transport_errors_wrapped_and_abort.1 (List Commit) eNet,
   C9_transport_errors_wrapped_and_abort.2.1 tFail "main" 0 0 [] eNet rfl,
   C9_transport_errors_wrapped_and_abort.2.2.1 tFail "main" none 0 eNet rfl,
   C9_transport_errors_wrapped_and_abort.2.2.2 tFail c0 none none 0 eNet
     (fun _ _ _ _ => rfl)⟩

/-- C10: in both pagination loops, a page that omits `isLastPage` is
treated as the last page — the loop appends that page's values (an
absent `values` contributing nothing) and returns the accumulator; and
when the loop does continue, an omitted `nextPageStart` defaults the
next offset to 0. -/
theorem C10_pagination_missing_fields :
    (∀ (t : Transport) (branch : String) (fuel start : Nat) (acc : List Commit)
       (page : Page Commit), t.commitsPage branch start 100 = .ok page →
       page.isLastPage = none →
       BitbucketClient.get_commits_go t branch (fuel + 1) start acc =
         .ok (acc ++ page.values.getD [])) ∧
    (∀ (t : Transport) (branch : String) (fuel start : Nat) (acc : List Commit)
       (page : Page Commit), t.commitsPage branch start 100 = .ok page →
       page.isLastPage = some false → page.nextPageStart = none →
       BitbucketClient.get_commits_go t branch (fuel + 1) start acc =
         BitbucketClient.get_commits_go t branch fuel 0 (acc ++ page.values.getD [])) ∧
    (∀ (t : Transport) (current_commit_id : String) (previous_commit_id : Option String)
       (fuel start : Nat) (acc : List Change) (page : Page Change),
       t.changesPage current_commit_id previous_commit_id start 1000 = .ok page →
       page.isLastPage = none →
       BitbucketClient.get_commit_changes_go t current_commit_id previous_commit_id
           (fuel + 1) start acc = .ok (acc ++ page.values.getD [])) ∧
    (∀ (t : Transport) (current_commit_id : String) (previous_commit_id : Option String)
       (fuel start : Nat) (acc : List Change) (page : Page Change),
       t.changesPage current_commit_id previous_commit_id start 1000 = .ok page →
       page.isLastPage = some false → page.nextPageStart = none →
       BitbucketClient.get_commit_changes_go t current_commit_id previous_commit_id
           (fuel + 1) start acc =
         BitbucketClient.get_commit_changes_go t current_commit_id previous_commit_id
           fuel 0 (acc ++ page.values.getD [])) := by
  refine ⟨?_, ?_, ?_, ?_⟩
  · intro t branch fuel start acc page hreq hlast
    simp [BitbucketClient.get_commits_go, BitbucketClient.make_request, hreq, hlast]
  · intro t branch fuel start acc page hreq hlast hnext
    simp [BitbucketClient.get_commits_go, BitbucketClient.make_request, hreq, hlast, hnext]
  · intro t current previous fuel start acc page hreq hlast
    simp [BitbucketClient.get_commit_changes_go, BitbucketClient.make_request, hreq, hlast]
  · intro t current previous fuel start acc page hreq hlast hnext
    simp [BitbucketClient.get_commit_changes_go, BitbucketClient.make_request,
      hreq, hlast, hnext]

/-- Witness for C10 at transports whose pages omit `isLastPage`. -/
theorem C10_pagination_missing_fields_witness :
    BitbucketClient.get_commits_go tPag "main" 1 0 [] =
      .ok ([] ++ pageNoLast.values.getD []) ∧
    BitbucketClient.get_commit_changes_go tPag "c1" none 1 0 [] =
      .ok ([] ++ pageNoLastChanges.values.getD []) :=
  ⟨C10_pagination_missing_fields.1 tPag "main" 0 0 [] pageNoLast rfl rfl,
   C10_pagination_missing_fields.2.2.1 tPag "c1" none 0 0 [] pageNoLastChanges rfl rfl⟩

/-- Elementwise description of the baseline-threading fold: when the run
succeeds, the i-th result is the analysis of the i-th commit of the
processed list, against the threaded baseline — the initial one at
position 0, then the id of the previous commit of the list. -/
theorem analyze_significant_commits_spec (t : Transport)
    (excluded_extensions : Option (List String)) (fuel : Nat) :
    ∀ (significant : List Commit) (previous_commit_id : Option String)
      (results : List AnalysisRecord),
      CommitAnalyzer.analyze_significant_commits t excluded_extensions fuel
        significant previous_commit_id = .ok results →
      ∀ i : Nat,
        results[i]? = (significant[i]?).bind (fun commit =>
          (CommitAnalyzer.analyze_commit_changes t commit
            (if i = 0 then previous_commit_id
             else (significant[i - 1]?).map Commit.id)
            excluded_extensions fuel).toOption)
  | [], previous_commit_id, results, h, i => by
    simp only [CommitAnalyzer.analyze_significant_commits, Except.ok.injEq] at h
    subst h
    simp
  | commit :: rest, previous_commit_id, results, h, i => by
    rw [CommitAnalyzer.analyze_significant_commits] at h
    split at h
    · simp at h
    · case _ analysis ha =>
      split at h
      · simp at h
      · case _ rs hr =>
        simp only [Except.ok.injEq] at h
        subst h
        have IH := analyze_significant_commits_spec t excluded_extensions fuel rest
          (some commit.id) rs hr
        cases i with
        | zero => simp [ha, Except.toOption]
        | succ j =>
          cases j with
          | zero => simpa using IH 0
          | succ k => simpa using IH (k + 1)

/-- C1: `analyze_branch` processes the significant commits oldest-first
(the newest-first significant subsequence reversed), threading the
baseline so that position 0 is analyzed with no baseline override and
every later position is analyzed against the previous significant commit
of this run; and on the concrete example list `[C, B, A]` (newest-first,
A initial, C a merge of A and B) the significant set is `[C, A]`, A is
processed first with no override, and C is analyzed with baseline A —
had the baseline been B, its record would have counted five changed
files instead of two. -/
theorem C1_oldest_first_baseline_threading :
    (∀ (t : Transport) (branch : String) (excluded_extensions : Option (List String))
       (fuel : Nat) (commits : List Commit) (results : List AnalysisRecord),
       BitbucketClient.get_commits t branch fuel = .ok commits →
       CommitAnalyzer.filter_significant_commits commits ≠ [] →
       CommitAnalyzer.analyze_branch t branch excluded_extensions fuel = .ok results →
       ∀ i : Nat,
         results[i]? =
           (((CommitAnalyzer.filter_significant_commits commits).reverse)[i]?).bind
             (fun commit =>
               (CommitAnalyzer.analyze_commit_changes t commit
                 (if i = 0 then none
                  else (((CommitAnalyzer.filter_significant_commits commits).reverse)[i - 1]?).map
                    Commit.id)
                 excluded_extensions fuel).toOption)) ∧
    (CommitAnalyzer.filter_significant_commits [cC, cB, cA] = [cC, cA] ∧
     CommitAnalyzer.analyze_branch tEx "feature" none 1 = .ok [recA, recC] ∧
     CommitAnalyzer.analyze_commit_changes tEx cA none none 1 = .ok recA ∧
     CommitAnalyzer.analyze_commit_changes tEx cC (some "A") none 1 = .ok recC ∧
     CommitAnalyzer.analyze_commit_changes tEx cC (some "B") none 1 = .ok recCB ∧
     recCB ≠ recC) := by
  constructor
  · intro t branch excluded fuel commits results hget hsig hbranch i
    have hc : commits.isEmpty = false := by
      cases hcommits : commits with
      | nil =>
        subst hcommits
        exact absurd rfl hsig
      | cons c cs => rfl
    have hs : (CommitAnalyzer.filter_significant_commits commits).isEmpty = false := by
      cases hfs : CommitAnalyzer.filter_significant_commits commits with
      | nil => exact absurd hfs hsig
      | cons c cs => rfl
    unfold CommitAnalyzer.analyze_branch at hbranch
    rw [hget] at hbranch
    simp only [hc, hs, Bool.false_eq_true, if_false] at hbranch
    exact analyze_significant_commits_spec t excluded fuel _ none results hbranch i
  · exact ⟨rfl, rfl, rfl, rfl, rfl, by decide⟩

/-- Witness for C1 at the example transport: position 1 of the output is
the analysis of commit C against the id of the significant commit at
position 0 (A), matching the threading description. -/
theorem C1_oldest_first_baseline_threading_witness :
    [recA, recC][1]? =
      (((CommitAnalyzer.filter_significant_commits [cC, cB, cA]).reverse)[1]?).bind
        (fun commit =>
          (CommitAnalyzer.analyze_commit_changes tEx commit
            (if 1 = 0 then none
             else (((CommitAnalyzer.filter_significant_commits [cC, cB, cA]).reverse)[1 - 1]?).map
               Commit.id)
            none 1).toOption) :=
  C1_oldest_first_baseline_threading.1 tEx "feature" none 1 [cC, cB, cA] [recA, recC]
    rfl (by decide) rfl 1

/-- Association-list lookup distributes over append, first list first. -/
theorem lookup_author_append (author_name : String) :
    ∀ l1 l2 : List (String × Reporter.AuthorTotals),
      List.lookup author_name (l1 ++ l2) =
        (List.lookup author_name l1).or (List.lookup author_name l2)
  | [], l2 => by simp
  | (k, v) :: rest, l2 => by
    rw [List.cons_append, List.lookup_cons, List.lookup_cons]
    cases hak : (author_name == k)
    · simpa using lookup_author_append author_name rest l2
    · simp

/-- The keys of the per-author dict built from any starting accumulator:
the accumulator keys followed by the first occurrences of the authors
not yet present. -/
theorem cumulative_keys_general :
    ∀ (analysis_results : List AnalysisRecord) (acc : List (String × Reporter.AuthorTotals)),
      (List.foldl Reporter.cumulative_step acc analysis_results).map Prod.fst =
        acc.map Prod.fst ++
          authors_first_occurrence (analysis_results.filter
            (fun r => !(List.lookup r.author acc).isSome))
  | [], acc => by simp [authors_first_occurrence]
  | result :: rest, acc => by
    rw [List.foldl_cons]
    by_cases hmem : (List.lookup result.author acc).isSome = true
    · have hstep : Reporter.cumulative_step acc result = acc := by
        unfold Reporter.cumulative_step
        exact if_pos hmem
      rw [hstep, cumulative_keys_general rest acc,
        List.filter_cons_of_neg (by simp only [hmem]; decide)]
    · have hstep : Reporter.cumulative_step acc result =
          acc ++ [(result.author, Reporter.author_totals result)] := by
        unfold Reporter.cumulative_step
        exact if_neg hmem
      have hmem' : (List.lookup result.author acc).isSome = false :=
        Bool.not_eq_true _ ▸ hmem
      have hfe : (fun r : AnalysisRecord =>
            !(List.lookup r.author
                (acc ++ [(result.author, Reporter.author_totals result)])).isSome) =
          (fun r : AnalysisRecord =>
            (!(r.author == result.author)) && (!(List.lookup r.author acc).isSome)) := by
        funext r
        rw [lookup_author_append, Option.isSome_or, List.lookup_cons]
        cases hra : (r.author == result.author) <;>
          cases hacc : (List.lookup r.author acc).isSome <;>
            simp only [hra, hacc] <;> simp
      rw [hstep,
        cumulative_keys_general rest (acc ++ [(result.author, Reporter.author_totals result)]),
        hfe, List.filter_cons_of_pos (by simp only [hmem']; decide)]
      simp only [authors_first_occurrence, List.filter_filter, List.map_append]
      simp
  termination_by analysis_results => analysis_results.length

/-- Lookup characterization of the per-author dict built from any
starting accumulator: an accumulator hit wins, otherwise the totals of
the first record of that author. -/
theorem cumulative_lookup_general (author_name : String) :
    ∀ (analysis_results : List AnalysisRecord) (acc : List (String × Reporter.AuthorTotals)),
      List.lookup author_name (List.foldl Reporter.cumulative_step acc analysis_results) =
        (List.lookup author_name acc).or
          ((analysis_results.find? (fun r => r.author == author_name)).map
            Reporter.author_totals)
  | [], acc => by simp
  | result :: rest, acc => by
    rw [List.foldl_cons]
    by_cases hmem : (List.lookup result.author acc).isSome = true
    · have hstep : Reporter.cumulative_step acc result = acc := by
        unfold Reporter.cumulative_step
        exact if_pos hmem
      rw [hstep, cumulative_lookup_general author_name rest acc]
      cases hra : (result.author == author_name)
      · rw [List.find?_cons]
        simp only [hra]
      · have heq : result.author = author_name := by simpa using hra
        obtain ⟨v, hv⟩ := Option.isSome_iff_exists.mp (heq ▸ hmem)
        rw [List.find?_cons]
        simp only [hra]
        rw [hv]
        simp
    · have hstep : Reporter.cumulative_step acc result =
          acc ++ [(result.author, Reporter.author_totals result)] := by
        unfold Reporter.cumulative_step
        exact if_neg hmem
      have hmem' : (List.lookup result.author acc).isSome = false :=
        Bool.not_eq_true _ ▸ hmem
      rw [hstep, cumulative_lookup_general author_name rest
        (acc ++ [(result.author, Reporter.author_totals result)]),
        lookup_author_append, Option.or_assoc, List.lookup_cons]
      cases hra : (author_name == result.author)
      · have hra2 : (result.author == author_name) = false := by
          rw [beq_eq_false_iff_ne] at hra ⊢
          exact fun hcontra => hra hcontra.symm
        rw [List.find?_cons]
        simp only [hra2]
        simp
      · have heq : author_name = result.author := by simpa using hra
        have hnone : List.lookup author_name acc = none := by
          rw [heq]
          cases hl : List.lookup result.author acc with
          | none => rfl
          | some v => rw [hl] at hmem'; simp at hmem'
        have hra2 : (result.author == author_name) = true := by
          simp only [beq_iff_eq]
          exact heq.symm
        rw [hnone, List.find?_cons]
        simp only [hra2]
        simp
  termination_by analysis_results => analysis_results.length

/-- C6 counterexample: with cumulative display, two record lists by the
same author that differ in every line count produce the same report
string, which is exactly the bare author name — the computed per-author
totals are not rendered (the source rebinds the report lines to the dict
and joins its keys). -/
theorem C6_counterexample_totals_not_rendered :
    Reporter.generate_text_report [recD1] true true =
        Reporter.generate_text_report [recD2] true true ∧
    recD1.lines_added ≠ recD2.lines_added ∧
    Reporter.generate_text_report [recD1] true true = .ok "alice" :=
  ⟨rfl, by decide, rfl⟩

/-- C6 (amended): with `show_cumulative` set, the report groups totals
by author with each author's totals initialized and accumulated only at
that author's first occurrence (the dict maps every author to the totals
of their first record), but the returned string renders only the author
names, newline-joined in first-occurrence order — not the numeric
breakdown. -/
theorem C6_cumulative_authors_only (analysis_results : List AnalysisRecord)
    (show_files : Bool) (h : analysis_results ≠ []) :
    Reporter.generate_text_report analysis_results show_files true =
      .ok (String.intercalate "\n" (authors_first_occurrence analysis_results)) ∧
    ∀ author_name : String,
      List.lookup author_name (Reporter.cumulative_by_author analysis_results) =
        ((analysis_results.find? (fun r => r.author == author_name)).map
          Reporter.author_totals) := by
  have hne : analysis_results.isEmpty = false := by
    cases analysis_results
    · exact absurd rfl h
    · rfl
  constructor
  · have hkeys := cumulative_keys_general analysis_results []
    simp only [List.lookup_nil, Option.isSome_none, Bool.not_false, List.filter_true,
      List.map_nil, List.nil_append] at hkeys
    have hgoal : Reporter.generate_text_report analysis_results show_files true =
        .ok (String.intercalate "\n"
          ((Reporter.cumulative_by_author analysis_results).map Prod.fst)) := by
      unfold Reporter.generate_text_report
      rw [hne]
      simp
    rw [hgoal]
    unfold Reporter.cumulative_by_author
    rw [hkeys]
  · intro author_name
    have hlook := cumulative_lookup_general author_name analysis_results []
    simpa [Reporter.cumulative_by_author] using hlook

/-- Witness for the amended C6 at a concrete one-record list. -/
theorem C6_cumulative_authors_only_witness :
    Reporter.generate_text_report [recD1] true true =
      .ok (String.intercalate "\n" (authors_first_occurrence [recD1])) ∧
    List.lookup "alice" (Reporter.cumulative_by_author [recD1]) =
      (([recD1].find? (fun r => r.author == "alice")).map Reporter.author_totals) :=
  ⟨(C6_cumulative_authors_only [recD1] true (by decide)).1,
   (C6_cumulative_authors_only [recD1] true (by decide)).2 "alice"⟩

/-- The four cumulative keys of an annotated record are read back by
`objGet` past the seven record keys before them. -/
theorem objGet_cumulative_fields (result : AnalysisRecord)
    (cumulative_files cumulative_added cumulative_removed : Nat) (cumulative_net : Int) :
    (JsonVal.obj (Reporter.analysis_record_fields result ++
        Reporter.cumulative_fields cumulative_files cumulative_added cumulative_removed
          cumulative_net)).objGet "cumulative_files_changed" =
        some (.num (cumulative_files : Int)) ∧
    (JsonVal.obj (Reporter.analysis_record_fields result ++
        Reporter.cumulative_fields cumulative_files cumulative_added cumulative_removed
          cumulative_net)).objGet "cumulative_lines_added" =
        some (.num (cumulative_added : Int)) ∧
    (JsonVal.obj (Reporter.analysis_record_fields result ++
        Reporter.cumulative_fields cumulative_files cumulative_added cumulative_removed
          cumulative_net)).objGet "cumulative_lines_removed" =
        some (.num (cumulative_removed : Int)) ∧
    (JsonVal.obj (Reporter.analysis_record_fields result ++
        Reporter.cumulative_fields cumulative_files cumulative_added cumulative_removed
          cumulative_net)).objGet "cumulative_net_change" =
        some (.num cumulative_net) :=
  ⟨rfl, rfl, rfl, rfl⟩

/-- The last annotated record carries the running totals of the whole
list on top of the starting accumulators. -/
theorem annotate_cumulative_last :
    ∀ (analysis_results : List AnalysisRecord) (cumulative_added cumulative_removed : Nat)
      (cumulative_net : Int) (cumulative_files : Nat), analysis_results ≠ [] →
      ∃ last, (Reporter.annotate_cumulative analysis_results cumulative_added
          cumulative_removed cumulative_net cumulative_files).getLast? = some last ∧
        last.objGet "cumulative_files_changed" =
          some (.num ((cumulative_files +
            (analysis_results.map (fun r => r.files_changed)).sum : Nat) : Int)) ∧
        last.objGet "cumulative_lines_added" =
          some (.num ((cumulative_added +
            (analysis_results.map (fun r => r.lines_added)).sum : Nat) : Int)) ∧
        last.objGet "cumulative_lines_removed" =
          some (.num ((cumulative_removed +
            (analysis_results.map (fun r => r.lines_removed)).sum : Nat) : Int)) ∧
        last.objGet "cumulative_net_change" =
          some (.num (cumulative_net + (analysis_results.map (fun r => r.net_change)).sum))
  | [], _, _, _, _, h => absurd rfl h
  | [result], ca, cr, cn, cf, _ => by
    obtain ⟨h1, h2, h3, h4⟩ := objGet_cumulative_fields result (cf + result.files_changed)
      (ca + result.lines_added) (cr + result.lines_removed) (cn + result.net_change)
    refine ⟨JsonVal.obj (Reporter.analysis_record_fields result ++
        Reporter.cumulative_fields (cf + result.files_changed) (ca + result.lines_added)
          (cr + result.lines_removed) (cn + result.net_change)), by rfl, ?_, ?_, ?_, ?_⟩
    · rw [h1]; simp
    · rw [h2]; simp
    · rw [h3]; simp
    · rw [h4]; simp
  | result :: next :: rest, ca, cr, cn, cf, _ => by
    obtain ⟨last, hlast, h1, h2, h3, h4⟩ := annotate_cumulative_last (next :: rest)
      (ca + result.lines_added) (cr + result.lines_removed) (cn + result.net_change)
      (cf + result.files_changed) (by simp)
    refine ⟨last, ?_, ?_, ?_, ?_, ?_⟩
    · rw [Reporter.annotate_cumulative]
      rw [Reporter.annotate_cumulative] at hlast ⊢
      rw [List.getLast?_cons_cons]
      exact hlast
    · rw [h1]; simp [List.sum_cons, Nat.add_assoc]
    · rw [h2]; simp [List.sum_cons, Nat.add_assoc]
    · rw [h3]; simp [List.sum_cons, Nat.add_assoc]
    · rw [h4]; simp [List.sum_cons, add_assoc]

/-- The four totals of the `summary` object are read back by `objGet`. -/
theorem objGet_report_summary (analysis_results : List AnalysisRecord) :
    (JsonVal.obj (Reporter.report_summary analysis_results)).objGet "total_files_changed" =
        some (.num (((analysis_results.map (fun r => r.files_changed)).sum : Nat) : Int)) ∧
    (JsonVal.obj (Reporter.report_summary analysis_results)).objGet "total_lines_added" =
        some (.num (((analysis_results.map (fun r => r.lines_added)).sum : Nat) : Int)) ∧
    (JsonVal.obj (Reporter.report_summary analysis_results)).objGet "total_lines_removed" =
        some (.num (((analysis_results.map (fun r => r.lines_removed)).sum : Nat) : Int)) ∧
    (JsonVal.obj (Reporter.report_summary analysis_results)).objGet "total_net_change" =
        some (.num ((analysis_results.map (fun r => r.net_change)).sum)) :=
  ⟨rfl, rfl, rfl, rfl⟩

/-- C8: in the cumulative JSON report of a non-empty record list, the
four cumulative fields of the last entry of the `commits` array equal
the corresponding totals of the `summary` object. -/
theorem C8_json_cumulative_matches_summary (analysis_results : List AnalysisRecord)
    (h : analysis_results ≠ []) :
    ∃ summary commits_last,
      (Reporter.generate_json_report analysis_results true).objGet "summary" =
        some summary ∧
      ((Reporter.generate_json_report analysis_results true).objGet "commits").bind
        JsonVal.arrLast = some commits_last ∧
      commits_last.objGet "cumulative_files_changed" =
        summary.objGet "total_files_changed" ∧
      commits_last.objGet "cumulative_lines_added" =
        summary.objGet "total_lines_added" ∧
      commits_last.objGet "cumulative_lines_removed" =
        summary.objGet "total_lines_removed" ∧
      commits_last.objGet "cumulative_net_change" =
        summary.objGet "total_net_change" ∧
      (summary.objGet "total_files_changed").isSome := by
  have hne : analysis_results.isEmpty = false := by
    cases analysis_results
    · exact absurd rfl h
    · rfl
  have hrep : Reporter.generate_json_report analysis_results true =
      JsonVal.obj [("summary", JsonVal.obj (Reporter.report_summary analysis_results)),
        ("commits", JsonVal.arr
          (Reporter.annotate_cumulative analysis_results 0 0 0 0))] := by
    unfold Reporter.generate_json_report
    rw [hne]
    simp
  obtain ⟨last, hlast, h1, h2, h3, h4⟩ :=
    annotate_cumulative_last analysis_results 0 0 0 0 h
  refine ⟨JsonVal.obj (Reporter.report_summary analysis_results), last, ?_, ?_, ?_, ?_, ?_, ?_, ?_⟩
  · rw [hrep]; rfl
  · rw [hrep]
    show (Reporter.annotate_cumulative analysis_results 0 0 0 0).getLast? = some last
    exact hlast
  · rw [h1, (objGet_report_summary analysis_results).1]; simp
  · rw [h2, (objGet_report_summary analysis_results).2.1]; simp
  · rw [h3, (objGet_report_summary analysis_results).2.2.1]; simp
  · rw [h4, (objGet_report_summary analysis_results).2.2.2]; simp
  · rw [(objGet_report_summary analysis_results).1]; rfl

/-- Witness for C8 at a concrete one-record list. -/
theorem C8_json_cumulative_matches_summary_witness :
    ∃ summary commits_last,
      (Reporter.generate_json_report [recD1] true).objGet "summary" = some summary ∧
      ((Reporter.generate_json_report [recD1] true).objGet "commits").bind
        JsonVal.arrLast = some commits_last ∧
      commits_last.objGet "cumulative_files_changed" =
        summary.objGet "total_files_changed" ∧
      commits_last.objGet "cumulative_lines_added" =
        summary.objGet "total_lines_added" ∧
      commits_last.objGet "cumulative_lines_removed" =
        summary.objGet "total_lines_removed" ∧
      commits_last.objGet "cumulative_net_change" =
        summary.objGet "total_net_change" ∧
      (summary.objGet "total_files_changed").isSome :=
  C8_json_cumulative_matches_summary [recD1] (by decide)
